import Mathlib

/-!
Verification of the KMS issuer reconciliation controller
(src/controllers/kmsissuer_controller.go) against its specification.

Shallow embedding conventions:
* Go `time.Duration` is an int64 count of nanoseconds; instants
  (`time.Time`) are modelled as nanosecond counts as well.  None of the
  verified properties depends on 64-bit wrap-around, so both are embedded
  as unbounded `Int`.
* Go pointers to `metav1.Duration` (`issuer.Spec.Duration`,
  `issuer.Spec.RenewBefore`) are `Option Int`: `none` is the nil pointer.
  A Go dereference `p.Duration` appears as `Option.getD 0`; the theorem
  for claim C10 shows every dereference site runs after defaulting, where
  both fields are `some`.
* `x509.Certificate.SerialNumber` is a `*big.Int`.  The embedding keeps
  both the pointer identity (`serialNumberAddr`, the address of the
  allocation) and the pointed-to value (`serialNumberVal`), because the
  source compares the field with `!=`, which in Go compares addresses,
  not values.
* External collaborators (the PEM/x509 parser, the KMSCA preview and
  signing engine, the PEM encoder and the outcome of each
  `Client.Status().Update` call) are inputs to the embedded `Reconcile`,
  bundled in `Collaborators`.
-/

namespace KMSIssuerController

/-- Go `time.Until(t)` evaluated when the current instant is `now`; both
Go durations (`time.Duration`, int64 nanoseconds) and instants
(`time.Time`) are embedded as `Int` nanosecond counts. -/
def timeUntil (now t : Int) : Int := t - now

/-- `DefaultCertDuration = time.Hour * 24 * 365 * 3` (3 years), in
nanoseconds (`time.Hour` is 3600e9 ns). -/
def DefaultCertDuration : Int := 1000000000 * 3600 * 24 * 365 * 3

/-- Go source: `DefaultCertRenewalRatio = 2 / 3`.  Both operands are
untyped integer constants, so Go evaluates this with truncating integer
division; the embedding mirrors that with `Int` division. -/
def DefaultCertRenewalRatioConst : Int := 2 / 3

/-- The truncating constant division collapses to zero. -/
theorem defaultCertRenewalRatioConst_eq_zero : DefaultCertRenewalRatioConst = 0 := rfl

/-- `KMSIssuerSpec`: `keyId` (`Spec.KeyID`), `commonName`
(`Spec.CommonName`), and the two `*metav1.Duration` timing fields. -/
structure KMSIssuerSpec where
  keyId : String
  commonName : String
  duration : Option Int
  renewBefore : Option Int
deriving DecidableEq

/-- Condition status values (`metav1.ConditionTrue` etc.). -/
inductive ConditionStatus where
  | isTrue
  | isFalse
  | unknown
deriving DecidableEq

/-- A status condition record: `{type, status, reason, message}`.  The
`lastTransitionTime` bookkeeping of the api package is irrelevant to
every claim and omitted. -/
structure Condition where
  condType : String
  status : ConditionStatus
  reason : String
  message : String
deriving DecidableEq

/-- `KMSIssuerStatus`: the stored PEM certificate bytes and the ordered
condition set. -/
structure KMSIssuerStatus where
  certificate : List Nat
  conditions : List Condition
deriving DecidableEq

/-- The `KMSIssuer` resource: spec plus status. -/
structure KMSIssuer where
  spec : KMSIssuerSpec
  status : KMSIssuerStatus
deriving DecidableEq

/-- Modelled from the spec: the condition merge of the api/v1alpha1
package (`Status.SetCondition`), whose source is not under src/.
Spec section 4.4: merge a condition into the ordered condition set,
replace-by-type, appending when no entry of that type exists. -/
def setCondition (conds : List Condition) (c : Condition) : List Condition :=
  if conds.any fun x => x.condType = c.condType then
    conds.map fun x => if x.condType = c.condType then c else x
  else
    conds ++ [c]

/-- First statement of `setIssuerDefaultValues`:
`if issuer.Spec.Duration == nil || issuer.Spec.Duration.Duration == 0`
then set the duration to `DefaultCertDuration`.  The Go `||` is
short-circuiting, so the nil check guards the dereference; the
disjunction below is its exact meaning. -/
def defaultDurationStep (spec : KMSIssuerSpec) : KMSIssuerSpec :=
  if spec.duration = none ∨ spec.duration = some 0 then
    { spec with duration := some DefaultCertDuration }
  else
    spec

/-- Second statement of `setIssuerDefaultValues`: if
`issuer.Spec.RenewBefore == nil`, set it to
`issuer.Spec.Duration.Duration * DefaultCertRenewalRatio`. -/
def defaultRenewBeforeStep (spec : KMSIssuerSpec) : KMSIssuerSpec :=
  if spec.renewBefore = none then
    { spec with renewBefore := some (spec.duration.getD 0 * DefaultCertRenewalRatioConst) }
  else
    spec

/-- Third statement of `setIssuerDefaultValues`: if
`issuer.Spec.RenewBefore.Duration > issuer.Spec.Duration.Duration`,
reset `renewBefore` to `duration * DefaultCertRenewalRatio`. -/
def clampRenewBeforeStep (spec : KMSIssuerSpec) : KMSIssuerSpec :=
  if spec.renewBefore.getD 0 > spec.duration.getD 0 then
    { spec with renewBefore := some (spec.duration.getD 0 * DefaultCertRenewalRatioConst) }
  else
    spec

/-- `setIssuerDefaultValues`: the three defaulting statements in source
order.  The Go function mutates `issuer.Spec` in place; the embedding
returns the updated spec. -/
def setIssuerDefaultValues (spec : KMSIssuerSpec) : KMSIssuerSpec :=
  clampRenewBeforeStep (defaultRenewBeforeStep (defaultDurationStep spec))

theorem defaultDurationStep_keyId (spec : KMSIssuerSpec) :
    (defaultDurationStep spec).keyId = spec.keyId := by
  unfold defaultDurationStep; split <;> rfl

theorem defaultDurationStep_renewBefore (spec : KMSIssuerSpec) :
    (defaultDurationStep spec).renewBefore = spec.renewBefore := by
  unfold defaultDurationStep; split <;> rfl

theorem defaultDurationStep_isSome (spec : KMSIssuerSpec) :
    (defaultDurationStep spec).duration.isSome := by
  unfold defaultDurationStep
  split
  · rfl
  · rename_i h
    push_neg at h
    cases hd : spec.duration with
    | none => exact absurd hd h.1
    | some d => rfl

theorem defaultDurationStep_ne_zero (spec : KMSIssuerSpec) :
    (defaultDurationStep spec).duration ≠ some 0 := by
  unfold defaultDurationStep
  split
  · simp [DefaultCertDuration]
  · rename_i h
    push_neg at h
    exact h.2

theorem defaultRenewBeforeStep_duration (spec : KMSIssuerSpec) :
    (defaultRenewBeforeStep spec).duration = spec.duration := by
  unfold defaultRenewBeforeStep; split <;> rfl

theorem defaultRenewBeforeStep_isSome (spec : KMSIssuerSpec) :
    (defaultRenewBeforeStep spec).renewBefore.isSome := by
  unfold defaultRenewBeforeStep
  split
  · rfl
  · rename_i h
    cases hr : spec.renewBefore with
    | none => exact absurd hr h
    | some r => rfl

theorem clampRenewBeforeStep_duration (spec : KMSIssuerSpec) :
    (clampRenewBeforeStep spec).duration = spec.duration := by
  unfold clampRenewBeforeStep; split <;> rfl

theorem clampRenewBeforeStep_isSome (spec : KMSIssuerSpec)
    (h : spec.renewBefore.isSome) : (clampRenewBeforeStep spec).renewBefore.isSome := by
  unfold clampRenewBeforeStep
  split
  · rfl
  · exact h

theorem setIssuerDefaultValues_duration_eq (spec : KMSIssuerSpec) :
    (setIssuerDefaultValues spec).duration = (defaultDurationStep spec).duration := by
  rw [setIssuerDefaultValues, clampRenewBeforeStep_duration, defaultRenewBeforeStep_duration]

theorem setIssuerDefaultValues_duration_isSome (spec : KMSIssuerSpec) :
    (setIssuerDefaultValues spec).duration.isSome := by
  rw [setIssuerDefaultValues_duration_eq]
  exact defaultDurationStep_isSome spec

theorem setIssuerDefaultValues_renewBefore_isSome (spec : KMSIssuerSpec) :
    (setIssuerDefaultValues spec).renewBefore.isSome :=
  clampRenewBeforeStep_isSome _ (defaultRenewBeforeStep_isSome _)

theorem defaultDurationStep_eq_self (spec : KMSIssuerSpec)
    (h1 : spec.duration ≠ none) (h2 : spec.duration ≠ some 0) :
    defaultDurationStep spec = spec := by
  unfold defaultDurationStep
  split
  · rename_i h
    rcases h with h | h
    · exact absurd h h1
    · exact absurd h h2
  · rfl

theorem defaultRenewBeforeStep_eq_self (spec : KMSIssuerSpec)
    (h : spec.renewBefore ≠ none) : defaultRenewBeforeStep spec = spec := by
  unfold defaultRenewBeforeStep
  split
  · rename_i hh
    exact absurd hh h
  · rfl

theorem clampRenewBeforeStep_eq_self (spec : KMSIssuerSpec)
    (h : ¬ spec.renewBefore.getD 0 > spec.duration.getD 0) :
    clampRenewBeforeStep spec = spec := by
  unfold clampRenewBeforeStep
  split
  · rename_i hh
    exact absurd hh h
  · rfl

theorem clampRenewBeforeStep_idem (spec : KMSIssuerSpec) :
    clampRenewBeforeStep (clampRenewBeforeStep spec) = clampRenewBeforeStep spec := by
  obtain ⟨k, cn, dur, rb⟩ := spec
  unfold clampRenewBeforeStep
  split
  · simp only [defaultCertRenewalRatioConst_eq_zero, mul_zero]
    split
    · simp
    · rfl
  · rfl

/-- C10: after `setIssuerDefaultValues` returns, both `*metav1.Duration`
pointer fields of the spec are non-nil, so the dereferences in
`desiredCertificateAuthorityCertificateInput`, `certificateNeedsRenewal`
and the requeue computation of `Reconcile` never hit a nil pointer. -/
theorem setIssuerDefaultValues_fields_isSome (spec : KMSIssuerSpec) :
    (setIssuerDefaultValues spec).duration.isSome ∧
      (setIssuerDefaultValues spec).renewBefore.isSome :=
  ⟨setIssuerDefaultValues_duration_isSome spec, setIssuerDefaultValues_renewBefore_isSome spec⟩

/-- C8: `setIssuerDefaultValues` is idempotent, and on every spec that
already satisfies `duration > 0` and `0 < renewBefore <= duration` it is
a no-op. -/
theorem setIssuerDefaultValues_idem_and_noop :
    (∀ spec : KMSIssuerSpec,
        setIssuerDefaultValues (setIssuerDefaultValues spec) = setIssuerDefaultValues spec) ∧
    (∀ (spec : KMSIssuerSpec) (d r : Int),
        spec.duration = some d → 0 < d → spec.renewBefore = some r → 0 < r → r ≤ d →
        setIssuerDefaultValues spec = spec) := by
  constructor
  · intro spec
    have hdur : (setIssuerDefaultValues spec).duration ≠ none := by
      have := setIssuerDefaultValues_duration_isSome spec
      exact Option.isSome_iff_ne_none.mp this
    have hdur0 : (setIssuerDefaultValues spec).duration ≠ some 0 := by
      rw [setIssuerDefaultValues_duration_eq]
      exact defaultDurationStep_ne_zero spec
    have hrb : (setIssuerDefaultValues spec).renewBefore ≠ none :=
      Option.isSome_iff_ne_none.mp (setIssuerDefaultValues_renewBefore_isSome spec)
    calc setIssuerDefaultValues (setIssuerDefaultValues spec)
        = clampRenewBeforeStep (defaultRenewBeforeStep (setIssuerDefaultValues spec)) := by
          rw [setIssuerDefaultValues, defaultDurationStep_eq_self _ hdur hdur0]
      _ = clampRenewBeforeStep (setIssuerDefaultValues spec) := by
          rw [defaultRenewBeforeStep_eq_self _ hrb]
      _ = setIssuerDefaultValues spec := by
          rw [setIssuerDefaultValues]
          exact clampRenewBeforeStep_idem _
  · intro spec d r hd hdpos hr hrpos hrd
    have h1 : defaultDurationStep spec = spec := by
      apply defaultDurationStep_eq_self
      · rw [hd]; exact Option.some_ne_none d
      · rw [hd]
        intro h
        exact absurd (Option.some.inj h) hdpos.ne'
    have h2 : defaultRenewBeforeStep spec = spec := by
      apply defaultRenewBeforeStep_eq_self
      rw [hr]; exact Option.some_ne_none r
    have h3 : clampRenewBeforeStep spec = spec := by
      apply clampRenewBeforeStep_eq_self
      rw [hd, hr]
      simp only [Option.getD_some]
      exact not_lt.mpr hrd
    rw [setIssuerDefaultValues, h1, h2, h3]

/-- Witness for C8: concrete runs of `setIssuerDefaultValues`, one for
the idempotence conjunct (on a spec with both fields unset) and one for
the no-op conjunct (duration 5 ns, renewBefore 3 ns). -/
theorem setIssuerDefaultValues_idem_and_noop_witness :
    setIssuerDefaultValues (setIssuerDefaultValues
        { keyId := "k1", commonName := "ca", duration := none, renewBefore := none }) =
      setIssuerDefaultValues
        { keyId := "k1", commonName := "ca", duration := none, renewBefore := none } ∧
    setIssuerDefaultValues
        { keyId := "k1", commonName := "ca", duration := some 5, renewBefore := some 3 } =
      { keyId := "k1", commonName := "ca", duration := some 5, renewBefore := some 3 } :=
  ⟨setIssuerDefaultValues_idem_and_noop.1 _,
    setIssuerDefaultValues_idem_and_noop.2 _ 5 3 rfl (by decide) rfl (by decide) (by decide)⟩

/-- C2 (evidence of the code defect): with a 3-second duration set and
`renewBefore` unset, `setIssuerDefaultValues` produces `renewBefore = 0`
— not the strictly positive two-thirds of the duration the spec
requires — because the constant `DefaultCertRenewalRatio = 2 / 3`
truncates to zero. -/
theorem setIssuerDefaultValues_renewBefore_collapses :
    (setIssuerDefaultValues
        { keyId := "k1", commonName := "ca", duration := some 3000000000,
          renewBefore := none }).renewBefore = some 0 ∧
      (some 0 : Option Int) ≠ some (3000000000 * 2 / 3) := by
  decide

/-- The relevant fields of a parsed `x509.Certificate`.
`SerialNumber` in Go is a `*big.Int`: `serialNumberAddr` is the address
of the allocation (its pointer identity) and `serialNumberVal` the
pointed-to integer.  The source compares this field with `!=`, which in
Go compares the addresses.  `raw` is the DER bytes (`cert.Raw`). -/
structure X509Certificate where
  serialNumberAddr : Nat
  serialNumberVal : Int
  notAfter : Int
  raw : List Nat
deriving DecidableEq

/-- `certificateNeedsRenewal`.  `ParseCertificate` (a thin wrapper over
the external `pem.Decode` and `x509.ParseCertificate`) is abstracted as
the function argument `parse`; `now` is the ambient clock instant read
by `time.Until`.  The four checks appear in source order:
stored bytes empty; parse failure; `time.Until(NotAfter - renewBefore)
== 0` (note: the source compares with `== 0`, not `<= 0`); and the
SerialNumber pointer comparison `desiredCert.SerialNumber !=
actualCert.SerialNumber`. -/
def certificateNeedsRenewal (parse : List Nat → Option X509Certificate)
    (now : Int) (issuer : KMSIssuer) (desiredCert : X509Certificate) : Bool :=
  if issuer.status.certificate.length = 0 then
    true
  else
    match parse issuer.status.certificate with
    | none => true
    | some actualCert =>
      if timeUntil now (actualCert.notAfter - issuer.spec.renewBefore.getD 0) = 0 then
        true
      else if desiredCert.serialNumberAddr ≠ actualCert.serialNumberAddr then
        true
      else
        false

/-- When the desired certificate's SerialNumber allocation is distinct
from whatever allocation the parser returns — which holds in every real
invocation, since `x509.ParseCertificate` allocates a fresh `big.Int`
inside the call while the desired preview is a live separate object —
`certificateNeedsRenewal` returns true on every input. -/
theorem certificateNeedsRenewal_true_of_fresh (parse : List Nat → Option X509Certificate)
    (now : Int) (issuer : KMSIssuer) (desiredCert : X509Certificate)
    (hfresh : ∀ a, parse issuer.status.certificate = some a →
      desiredCert.serialNumberAddr ≠ a.serialNumberAddr) :
    certificateNeedsRenewal parse now issuer desiredCert = true := by
  unfold certificateNeedsRenewal
  split
  · rfl
  · cases hp : parse issuer.status.certificate with
    | none => rfl
    | some a =>
      show (if timeUntil now (a.notAfter - issuer.spec.renewBefore.getD 0) = 0 then true
        else if desiredCert.serialNumberAddr ≠ a.serialNumberAddr then true else false) = true
      split
      · rfl
      · simp [hfresh a hp]

/-- C1: for a stored certificate that parses, at every instant from the
renewal threshold `NotAfter - renewBefore` on — the boundary included —
the predicate returns true.  At the boundary the `time.Until(...) == 0`
check fires; strictly after it, that check is false (the source tests
equality with zero, not `<= 0`) and the result is true through the
SerialNumber pointer inequality, which holds in every real invocation
(`hfresh`). -/
theorem certificateNeedsRenewal_past_threshold (parse : List Nat → Option X509Certificate)
    (now : Int) (issuer : KMSIssuer) (desiredCert actualCert : X509Certificate)
    (hparse : parse issuer.status.certificate = some actualCert)
    (hfresh : desiredCert.serialNumberAddr ≠ actualCert.serialNumberAddr)
    (hlate : actualCert.notAfter - issuer.spec.renewBefore.getD 0 ≤ now) :
    certificateNeedsRenewal parse now issuer desiredCert = true := by
  apply certificateNeedsRenewal_true_of_fresh
  intro a ha
  rw [hparse] at ha
  exact (Option.some.inj ha) ▸ hfresh

/-- C5: two evaluations of `certificateNeedsRenewal` at different clock
instants, on the same stored bytes and renewBefore and on structurally
equal desired previews (equal serial values and NotAfter, possibly held
in different allocations), return the same boolean, provided each
desired preview's SerialNumber allocation is distinct from the parsed
certificate's — as is the case in every real invocation. -/
theorem certificateNeedsRenewal_time_invariant (parse : List Nat → Option X509Certificate)
    (issuer : KMSIssuer) (d1 d2 : X509Certificate) (t1 t2 : Int)
    (hval : d1.serialNumberVal = d2.serialNumberVal)
    (hna : d1.notAfter = d2.notAfter)
    (hf1 : ∀ a, parse issuer.status.certificate = some a →
      d1.serialNumberAddr ≠ a.serialNumberAddr)
    (hf2 : ∀ a, parse issuer.status.certificate = some a →
      d2.serialNumberAddr ≠ a.serialNumberAddr) :
    certificateNeedsRenewal parse t1 issuer d1 =
      certificateNeedsRenewal parse t2 issuer d2 := by
  rw [certificateNeedsRenewal_true_of_fresh parse t1 issuer d1 hf1,
    certificateNeedsRenewal_true_of_fresh parse t2 issuer d2 hf2]

/-- A sample parsed (stored) certificate: serial value 7 held at
allocation address 0, NotAfter at instant 1000 ns. -/
def certStoredSample : X509Certificate :=
  { serialNumberAddr := 0, serialNumberVal := 7, notAfter := 1000, raw := [48] }

/-- A sample desired preview: same serial value 7 and same NotAfter as
`certStoredSample`, but held at a different allocation (address 1). -/
def certDesiredSample : X509Certificate :=
  { serialNumberAddr := 1, serialNumberVal := 7, notAfter := 1000, raw := [48] }

/-- A sample parser recognising the stored bytes as `certStoredSample`. -/
def parseSample : List Nat → Option X509Certificate := fun _ => some certStoredSample

/-- A sample issuer with a stored certificate, duration 1000 ns and
renewBefore 100 ns, so the renewal threshold is the instant 900. -/
def issuerStoredSample : KMSIssuer :=
  { spec :=
      { keyId := "k1"
        commonName := "ca"
        duration := some 1000
        renewBefore := some 100 }
    status :=
      { certificate := [48]
        conditions := [] } }

/-- Witness for C1: at instant 1000, strictly after the threshold 900,
the predicate returns true. -/
theorem certificateNeedsRenewal_past_threshold_witness :
    certificateNeedsRenewal parseSample 1000 issuerStoredSample certDesiredSample = true :=
  certificateNeedsRenewal_past_threshold parseSample 1000 issuerStoredSample
    certDesiredSample certStoredSample rfl (by decide) (by decide)

/-- C4 (evidence of the code defect): at instant 0, strictly before the
renewal threshold 900, with the stored and desired serial numbers equal
in value (both 7) but held in distinct allocations,
`certificateNeedsRenewal` returns true — the source compares the
`*big.Int` SerialNumber pointers with `!=` instead of comparing the
values, so it renews even though nothing changed. -/
theorem certificateNeedsRenewal_pointer_compare :
    certDesiredSample.serialNumberVal = certStoredSample.serialNumberVal ∧
      timeUntil 0 (certStoredSample.notAfter -
        issuerStoredSample.spec.renewBefore.getD 0) > 0 ∧
      certificateNeedsRenewal parseSample 0 issuerStoredSample certDesiredSample = true := by
  decide

/-- Witness for C5: the boundary instant 900 (where the `== 0` time
check fires) and the later instant 12345 (where it does not) give the
same answer. -/
theorem certificateNeedsRenewal_time_invariant_witness :
    certificateNeedsRenewal parseSample 900 issuerStoredSample certDesiredSample =
      certificateNeedsRenewal parseSample 12345 issuerStoredSample certDesiredSample := by
  apply certificateNeedsRenewal_time_invariant parseSample issuerStoredSample
    certDesiredSample certDesiredSample 900 12345 rfl rfl
  all_goals
    intro a ha
    rw [show a = certStoredSample from (Option.some.inj ha).symm]
    decide

/-- `kmsca.GenerateCertificateAuthorityCertificateInput`, restricted to
the fields the controller fills in (`Subject` is `pkix.Name` with only
`CommonName` set). -/
structure GenerateCertificateAuthorityCertificateInput where
  keyId : String
  commonName : String
  duration : Int
  rounding : Int
deriving DecidableEq

/-- `desiredCertificateAuthorityCertificateInput`: builds the CA engine
input from the (already defaulted) spec; `Rounding` is
`duration - renewBefore`. -/
def desiredCertificateAuthorityCertificateInput (issuer : KMSIssuer) :
    GenerateCertificateAuthorityCertificateInput :=
  { keyId := issuer.spec.keyId
    commonName := issuer.spec.commonName
    duration := issuer.spec.duration.getD 0
    rounding := issuer.spec.duration.getD 0 - issuer.spec.renewBefore.getD 0 }

/-- One `Client.Status().Update` call: the status value handed to the
store and the outcome the store returned (`none` = success, `some e` =
the error `e`). -/
structure StatusWrite where
  status : KMSIssuerStatus
  outcome : Option String
deriving DecidableEq

/-- `manageFailure`: merge `Ready=False, reason=Failed` with the
caller-supplied message into the conditions (reason string modelled from
the spec, the api constant is not under src/), then persist status.
`issue` is only logged and sent to the event recorder; the function's
return value is the error of the `Status().Update` call ALONE — the
original failure `issue` is not propagated.  Result: updated in-memory
issuer, the performed status write, and the returned error. -/
def manageFailure (issuer : KMSIssuer) (issue message : String)
    (updateOutcome : Option String) : KMSIssuer × StatusWrite × Option String :=
  let ready : Condition :=
    { condType := "Ready", status := ConditionStatus.isFalse, reason := "Failed",
      message := message }
  let issuer1 : KMSIssuer :=
    { issuer with status :=
        { issuer.status with conditions := setCondition issuer.status.conditions ready } }
  (issuer1, { status := issuer1.status, outcome := updateOutcome }, updateOutcome)

/-- `manageSuccess`: merge `Ready=True, reason=Issued, message=""` into
the conditions, persist status, return the update's error. -/
def manageSuccess (issuer : KMSIssuer) (updateOutcome : Option String) :
    KMSIssuer × StatusWrite × Option String :=
  let ready : Condition :=
    { condType := "Ready", status := ConditionStatus.isTrue, reason := "Issued", message := "" }
  let issuer1 : KMSIssuer :=
    { issuer with status :=
        { issuer.status with conditions := setCondition issuer.status.conditions ready } }
  (issuer1, { status := issuer1.status, outcome := updateOutcome }, updateOutcome)

/-- `ctrl.Result`: only `RequeueAfter` is ever set by this controller;
the zero value `ctrl.Result{}` is `requeueAfter = 0`. -/
structure CtrlResult where
  requeueAfter : Int
deriving DecidableEq

/-- What one `Reconcile` invocation produces: the returned
`(ctrl.Result, error)` pair, the final in-memory issuer, and the ordered
list of `Status().Update` calls it performed. -/
structure ReconcileOutput where
  result : CtrlResult
  error : Option String
  issuer : KMSIssuer
  writes : List StatusWrite
deriving DecidableEq

/-- The external collaborators of one `Reconcile` invocation:
`parse` is `ParseCertificate` (pem + x509, external library code);
`preview` is `KMSCA.GenerateCertificateAuthorityCertificate`;
`sign` is `KMSCA.GenerateAndSignCertificateAuthorityCertificate`;
`pemEncode` is `pem.EncodeToMemory` of a `CERTIFICATE` block around
`cert.Raw`; `update1`/`update2` are the store outcomes of the first and
second `Status().Update` call of the invocation (at most two occur). -/
structure Collaborators where
  parse : List Nat → Option X509Certificate
  preview : GenerateCertificateAuthorityCertificateInput → X509Certificate
  sign : GenerateCertificateAuthorityCertificateInput → Except String X509Certificate
  pemEncode : List Nat → List Nat
  update1 : Option String
  update2 : Option String

/-- `Reconcile`, from the point where the issuer has been fetched (the
fetch at lines 80-83 is pure store glue preceding everything the claims
speak about, and performs no status write).  Mirrors the source: empty
`KeyID` routes to `manageFailure`; otherwise the spec is defaulted in
place, a preview is computed, `certificateNeedsRenewal` is consulted,
and on renewal the signed certificate is PEM-encoded into status and
persisted before `manageSuccess` runs; every `return` site forwards the
error produced by `manageFailure`/`manageSuccess`. -/
def Reconcile (c : Collaborators) (now : Int) (issuer0 : KMSIssuer) : ReconcileOutput :=
  if issuer0.spec.keyId = "" then
    let r := manageFailure issuer0 "INVALID KeyId"
      ("Not a valid key: " ++ issuer0.spec.keyId) c.update1
    { result := { requeueAfter := 0 }, error := r.2.2, issuer := r.1, writes := [r.2.1] }
  else
    let issuer1 : KMSIssuer := { issuer0 with spec := setIssuerDefaultValues issuer0.spec }
    let certInput := desiredCertificateAuthorityCertificateInput issuer1
    let desiredCert := c.preview certInput
    if certificateNeedsRenewal c.parse now issuer1 desiredCert then
      match c.sign certInput with
      | Except.error e =>
        let r := manageFailure issuer1 e
          "Failed to generate the Certificate Authority Certificate" c.update1
        { result := { requeueAfter := 0 }, error := r.2.2, issuer := r.1, writes := [r.2.1] }
      | Except.ok cert =>
        let issuer2 : KMSIssuer :=
          { issuer1 with status :=
              { issuer1.status with certificate := c.pemEncode cert.raw } }
        let w1 : StatusWrite := { status := issuer2.status, outcome := c.update1 }
        match c.update1 with
        | some e =>
          let r := manageFailure issuer2 e
            "Failed to update the issuer with the issued Certificate" c.update2
          { result := { requeueAfter := 0 }, error := r.2.2, issuer := r.1,
            writes := [w1, r.2.1] }
        | none =>
          let r := manageSuccess issuer2 c.update2
          let req := timeUntil now (desiredCert.notAfter - issuer1.spec.renewBefore.getD 0)
          { result := { requeueAfter := req }, error := r.2.2, issuer := r.1,
            writes := [w1, r.2.1] }
    else
      let r := manageSuccess issuer1 c.update1
      let req := timeUntil now (desiredCert.notAfter - issuer1.spec.renewBefore.getD 0)
      { result := { requeueAfter := req }, error := r.2.2, issuer := r.1, writes := [r.2.1] }

/-- The `Ready=True` condition written by `manageSuccess`. -/
def readyTrueIssued : Condition := ⟨"Ready", ConditionStatus.isTrue, "Issued", ""⟩

/-- The `Ready=False` condition written when signing fails. -/
def readyFalseSignFail : Condition :=
  ⟨"Ready", ConditionStatus.isFalse, "Failed",
    "Failed to generate the Certificate Authority Certificate"⟩

/-- A collaborator bundle where every external call succeeds: the parser
yields `certStoredSample`, preview and signing yield
`certDesiredSample`, PEM encoding is the identity on bytes, and both
possible status updates succeed. -/
def collabAllOK : Collaborators :=
  { parse := parseSample
    preview := fun _ => certDesiredSample
    sign := fun _ => Except.ok certDesiredSample
    pemEncode := fun raw => raw
    update1 := none
    update2 := none }

/-- Like `collabAllOK` but the signing call fails. -/
def collabSignFail : Collaborators :=
  { parse := parseSample
    preview := fun _ => certDesiredSample
    sign := fun _ => Except.error "kms unavailable"
    pemEncode := fun raw => raw
    update1 := none
    update2 := none }

/-- An issuer whose key reference is empty (hard validation failure). -/
def issuerEmptyKey : KMSIssuer :=
  { spec :=
      { keyId := ""
        commonName := ""
        duration := none
        renewBefore := none }
    status :=
      { certificate := []
        conditions := [] } }

/-- An issuer with a valid key and no stored certificate yet. -/
def issuerFreshSample : KMSIssuer :=
  { spec :=
      { keyId := "k1"
        commonName := "ca"
        duration := some 1000
        renewBefore := some 100 }
    status :=
      { certificate := []
        conditions := [] } }

/-- C3 (evidence of the code defect): when the status update itself
succeeds, `Reconcile` returns a nil error after a failure.  Shown for a
validation failure (empty key) and for a signing failure: in both runs
the Ready condition does record the failure, yet the returned error is
`none`, because `manageFailure` returns only the `Status().Update`
error and discards the failure it was given — so the host never sees an
error and applies no retry/backoff. -/
theorem reconcile_failure_returns_nil_error :
    (Reconcile collabAllOK 0 issuerEmptyKey).error = none ∧
      (Reconcile collabAllOK 0 issuerEmptyKey).issuer.status.conditions =
        [⟨"Ready", ConditionStatus.isFalse, "Failed", "Not a valid key: "⟩] ∧
      (Reconcile collabSignFail 0 issuerFreshSample).error = none ∧
      (Reconcile collabSignFail 0 issuerFreshSample).issuer.status.conditions =
        [readyFalseSignFail] := by
  decide

/-- C6 is refuted by this run: with a valid key, no stored certificate
and every collaborator call succeeding, one `Reconcile` invocation
performs TWO status writes on the renewal path — the first persists the
certificate bytes with no Ready condition yet, the second adds
`Ready=True`. -/
theorem reconcile_two_writes_counterexample :
    (Reconcile collabAllOK 0 issuerFreshSample).writes =
      [⟨⟨certDesiredSample.raw, []⟩, none⟩,
        ⟨⟨certDesiredSample.raw, [readyTrueIssued]⟩, none⟩] := by
  decide

/-- The Ready condition carried by the second status write of the
renewal path, as a function of the first (certificate-bytes) write's
outcome: `manageSuccess` writes `Ready=True, Issued` when that update
succeeded, `manageFailure` writes `Ready=False, Failed` with the
update-failure message when it did not. -/
def readyConditionAfterCertWrite : Option String → Condition
  | none => readyTrueIssued
  | some _ =>
    ⟨"Ready", ConditionStatus.isFalse, "Failed",
      "Failed to update the issuer with the issued Certificate"⟩

/-- C6 as amended: the persisted status is written at most twice per
invocation; whenever renewal is needed and the signing call succeeds,
exactly two writes happen — the first carries the new certificate bytes
with the conditions still unchanged from before the invocation (no
refreshed Ready condition), the second carries the merged Ready
condition — and on every other path (empty key, no renewal needed, or
signing failure) exactly one write happens. -/
theorem reconcile_write_count (c : Collaborators) (now : Int) (issuer : KMSIssuer) :
    ((Reconcile c now issuer).writes.length = 1 ∨
      (Reconcile c now issuer).writes.length = 2) ∧
    (∀ cert : X509Certificate, issuer.spec.keyId ≠ "" →
      certificateNeedsRenewal c.parse now
          { issuer with spec := setIssuerDefaultValues issuer.spec }
          (c.preview (desiredCertificateAuthorityCertificateInput
            { issuer with spec := setIssuerDefaultValues issuer.spec })) = true →
      c.sign (desiredCertificateAuthorityCertificateInput
          { issuer with spec := setIssuerDefaultValues issuer.spec }) = Except.ok cert →
      (Reconcile c now issuer).writes =
        [⟨⟨c.pemEncode cert.raw, issuer.status.conditions⟩, c.update1⟩,
          ⟨⟨c.pemEncode cert.raw,
              setCondition issuer.status.conditions
                (readyConditionAfterCertWrite c.update1)⟩, c.update2⟩]) ∧
    (issuer.spec.keyId = "" ∨
      certificateNeedsRenewal c.parse now
          { issuer with spec := setIssuerDefaultValues issuer.spec }
          (c.preview (desiredCertificateAuthorityCertificateInput
            { issuer with spec := setIssuerDefaultValues issuer.spec })) = false ∨
      (∃ e, c.sign (desiredCertificateAuthorityCertificateInput
          { issuer with spec := setIssuerDefaultValues issuer.spec }) = Except.error e) →
      (Reconcile c now issuer).writes.length = 1) := by
  refine ⟨?_, ?_, ?_⟩
  · by_cases hk : issuer.spec.keyId = ""
    · simp [Reconcile, hk]
    · cases hnr : certificateNeedsRenewal c.parse now
          { issuer with spec := setIssuerDefaultValues issuer.spec }
          (c.preview (desiredCertificateAuthorityCertificateInput
            { issuer with spec := setIssuerDefaultValues issuer.spec })) with
      | false => simp [Reconcile, hk, hnr]
      | true =>
        cases hs : c.sign (desiredCertificateAuthorityCertificateInput
            { issuer with spec := setIssuerDefaultValues issuer.spec }) with
        | error e => simp [Reconcile, hk, hnr, hs]
        | ok cert =>
          cases hu : c.update1 with
          | none => simp [Reconcile, hk, hnr, hs, hu]
          | some e => simp [Reconcile, hk, hnr, hs, hu]
  · intro cert hk hnr hs
    cases hu : c.update1 with
    | none =>
      simp [Reconcile, hk, hnr, hs, hu, manageSuccess, readyConditionAfterCertWrite,
        readyTrueIssued]
    | some e =>
      simp [Reconcile, hk, hnr, hs, hu, manageFailure, readyConditionAfterCertWrite]
  · intro h
    by_cases hk : issuer.spec.keyId = ""
    · simp [Reconcile, hk]
    · cases hnr : certificateNeedsRenewal c.parse now
          { issuer with spec := setIssuerDefaultValues issuer.spec }
          (c.preview (desiredCertificateAuthorityCertificateInput
            { issuer with spec := setIssuerDefaultValues issuer.spec })) with
      | false => simp [Reconcile, hk, hnr]
      | true =>
        rcases h with h | h | ⟨e, hs⟩
        · exact absurd h hk
        · rw [hnr] at h
          exact absurd h (by simp)
        · simp [Reconcile, hk, hnr, hs]

/-- Witness for C6 as amended: a fully successful renewal run hits the
two-write conjunct (new bytes first, merged `Ready=True` second), and a
signing-failure run hits the one-write conjunct. -/
theorem reconcile_write_count_witness :
    ((Reconcile collabAllOK 0 issuerFreshSample).writes.length = 1 ∨
      (Reconcile collabAllOK 0 issuerFreshSample).writes.length = 2) ∧
    (Reconcile collabAllOK 0 issuerFreshSample).writes =
      [⟨⟨collabAllOK.pemEncode certDesiredSample.raw, issuerFreshSample.status.conditions⟩,
          collabAllOK.update1⟩,
        ⟨⟨collabAllOK.pemEncode certDesiredSample.raw,
            setCondition issuerFreshSample.status.conditions
              (readyConditionAfterCertWrite collabAllOK.update1)⟩,
          collabAllOK.update2⟩] ∧
    (Reconcile collabSignFail 0 issuerFreshSample).writes.length = 1 :=
  ⟨(reconcile_write_count collabAllOK 0 issuerFreshSample).1,
    (reconcile_write_count collabAllOK 0 issuerFreshSample).2.1 certDesiredSample
      (by decide) (by decide) rfl,
    (reconcile_write_count collabSignFail 0 issuerFreshSample).2.2
      (Or.inr (Or.inr ⟨"kms unavailable", rfl⟩))⟩

/-- C7: whenever validation passes and every attempted collaborator
call succeeds (signing never fails, both status update slots succeed),
the returned requeue directive is exactly
`desired.NotAfter - renewBefore - now` with `renewBefore` taken after
defaulting — returned as-is even when zero or negative — and the
returned error is nil. -/
theorem reconcile_success_requeue (c : Collaborators) (now : Int) (issuer : KMSIssuer)
    (hkey : issuer.spec.keyId ≠ "")
    (hsign : ∀ e, c.sign (desiredCertificateAuthorityCertificateInput
      { issuer with spec := setIssuerDefaultValues issuer.spec }) ≠ Except.error e)
    (h1 : c.update1 = none) (h2 : c.update2 = none) :
    (Reconcile c now issuer).result.requeueAfter =
      (c.preview (desiredCertificateAuthorityCertificateInput
        { issuer with spec := setIssuerDefaultValues issuer.spec })).notAfter -
        (setIssuerDefaultValues issuer.spec).renewBefore.getD 0 - now ∧
    (Reconcile c now issuer).error = none := by
  cases hnr : certificateNeedsRenewal c.parse now
      { issuer with spec := setIssuerDefaultValues issuer.spec }
      (c.preview (desiredCertificateAuthorityCertificateInput
        { issuer with spec := setIssuerDefaultValues issuer.spec })) with
  | false => constructor <;> simp [Reconcile, hkey, hnr, h1, manageSuccess, timeUntil]
  | true =>
    cases hs : c.sign (desiredCertificateAuthorityCertificateInput
        { issuer with spec := setIssuerDefaultValues issuer.spec }) with
    | error e => exact absurd hs (hsign e)
    | ok cert =>
      constructor <;> simp [Reconcile, hkey, hnr, hs, h1, h2, manageSuccess, timeUntil]

/-- Witness for C7: the fully successful renewal run returns requeue
`1000 - 100 - 0 = 900` and a nil error. -/
theorem reconcile_success_requeue_witness :
    (Reconcile collabAllOK 0 issuerFreshSample).result.requeueAfter =
      (collabAllOK.preview (desiredCertificateAuthorityCertificateInput
        { issuerFreshSample with
            spec := setIssuerDefaultValues issuerFreshSample.spec })).notAfter -
        (setIssuerDefaultValues issuerFreshSample.spec).renewBefore.getD 0 - 0 ∧
    (Reconcile collabAllOK 0 issuerFreshSample).error = none :=
  reconcile_success_requeue collabAllOK 0 issuerFreshSample (by decide)
    (fun e h => by simp [collabAllOK] at h) rfl rfl

/-- C9: when renewal is needed but the signing call fails, the final
in-memory issuer keeps the stored certificate bytes exactly as they
were before the invocation, its conditions change only by the merged
`Ready=False` failure condition, and the single status write performed
is the failure path's. -/
theorem reconcile_sign_failure_frame (c : Collaborators) (now : Int)
    (issuer : KMSIssuer) (e : String)
    (hkey : issuer.spec.keyId ≠ "")
    (hneeds : certificateNeedsRenewal c.parse now
      { issuer with spec := setIssuerDefaultValues issuer.spec }
      (c.preview (desiredCertificateAuthorityCertificateInput
        { issuer with spec := setIssuerDefaultValues issuer.spec })) = true)
    (hsign : c.sign (desiredCertificateAuthorityCertificateInput
      { issuer with spec := setIssuerDefaultValues issuer.spec }) = Except.error e) :
    (Reconcile c now issuer).issuer.status.certificate = issuer.status.certificate ∧
      (Reconcile c now issuer).issuer.status.conditions =
        setCondition issuer.status.conditions readyFalseSignFail ∧
      (Reconcile c now issuer).writes =
        [⟨(Reconcile c now issuer).issuer.status, c.update1⟩] := by
  refine ⟨?_, ?_, ?_⟩ <;>
    simp [Reconcile, hkey, hneeds, hsign, manageFailure, readyFalseSignFail]

/-- Witness for C9: the signing-failure run leaves the (empty) stored
bytes untouched, merges the failure condition, and performs one write. -/
theorem reconcile_sign_failure_frame_witness :
    (Reconcile collabSignFail 0 issuerFreshSample).issuer.status.certificate =
      issuerFreshSample.status.certificate ∧
      (Reconcile collabSignFail 0 issuerFreshSample).issuer.status.conditions =
        setCondition issuerFreshSample.status.conditions readyFalseSignFail ∧
      (Reconcile collabSignFail 0 issuerFreshSample).writes =
        [⟨(Reconcile collabSignFail 0 issuerFreshSample).issuer.status,
          collabSignFail.update1⟩] :=
  reconcile_sign_failure_frame collabSignFail 0 issuerFreshSample "kms unavailable"
    (by decide) (by decide) rfl

end KMSIssuerController
